import Mathlib

/-!
# SelfControlledCaseSeries: the exported call adapter `SelfControlledCaseSeries_convertToSccs`

Shallow embedding of `src/RcppExports.cpp`.  The file holds one function, the
generated bridge between the host runtime (R) and the native routine
`convertToSccs`.  The routine itself, the conversions `Rcpp::as` / `Rcpp::wrap`
and the host values are not part of the file, so they are parameters of the
model, together with the side effects they may have on the host; the adapter's
own statements are executed on an explicit host state (protection stack,
random-number-generator scope, generator state, everything else) and every
executed statement is logged together with the host state it leaves behind.
-/

namespace SccsExports

/-- The six formal parameters of `convertToSccs`, in declared order. -/
inductive Param where
  | cases
  | eras
  | covariateStart
  | covariatePersistencePeriod
  | naivePeriod
  | firstOutcomeOnly
  deriving DecidableEq, Repr

/-- The six incoming host values of `SelfControlledCaseSeries_convertToSccs`
(`SEXP casesSEXP, SEXP erasSEXP, ...`), in declared order. -/
structure HostArgs (SEXP : Type) where
  casesSEXP : SEXP
  erasSEXP : SEXP
  covariateStartSEXP : SEXP
  covariatePersistencePeriodSEXP : SEXP
  naivePeriodSEXP : SEXP
  firstOutcomeOnlySEXP : SEXP

/-- Modelled from the spec: the part of the host runtime state outside the
protection stack and the scope bookkeeping: the state of the host
random-number generator (its seed vector) and every other part of the host. -/
structure Ambient (W : Type) where
  rngState : List Int
  rest : W

/-- Everything the adapter uses but the source file does not define: the
conversions from host values (`Rcpp::as` behind `input_parameter`), the
conversion of the result back (`Rcpp::wrap`), and the routine `convertToSccs`
declared on line 9.  Each may raise a native exception (`Except.error`), and
each comes with the side effect its execution has on the host outside the
protection stack (the `...Effect` fields).  `rngScopeEnter` and `rngScopeExit`
are what the constructor and the destructor of `Rcpp::RNGScope` do to that
part of the host.  C++ `int` values are carried as integers; the adapter does
no arithmetic on them. -/
structure Native (SEXP DataFrame RList Exn W : Type) where
  asDataFrame : SEXP → Except Exn DataFrame
  asInt : SEXP → Except Exn Int
  asBool : SEXP → Except Exn Bool
  wrap : RList → Except Exn SEXP
  convertToSccs : DataFrame → DataFrame → Int → Int → Int → Bool → Except Exn RList
  asDataFrameEffect : SEXP → Ambient W → Ambient W
  asIntEffect : SEXP → Ambient W → Ambient W
  asBoolEffect : SEXP → Ambient W → Ambient W
  wrapEffect : RList → Ambient W → Ambient W
  convertToSccsEffect :
    DataFrame → DataFrame → Int → Int → Int → Bool → Ambient W → Ambient W
  rngScopeEnter : Ambient W → Ambient W
  rngScopeExit : Ambient W → Ambient W

/-- Modelled from the spec: the host runtime state the adapter can act on.
`ppStack` is the protection stack of PROTECT / UNPROTECT (top at the head),
`rngScope` is the nesting depth of live `Rcpp::RNGScope` objects (the
random-number-generator scope "entered for the duration of the call"), and
`ambient` is the rest of the host, the generator state included. -/
structure Host (SEXP W : Type) where
  ppStack : List SEXP
  rngScope : Nat
  ambient : Ambient W

/-- Modelled from the spec: `PROTECT(s)` registers `s` on the protection stack. -/
def Host.PROTECT {SEXP W : Type} (s : SEXP) (h : Host SEXP W) : Host SEXP W :=
  { h with ppStack := s :: h.ppStack }

/-- Modelled from the spec: `UNPROTECT(n)` removes the `n` most recently
protected entries. -/
def Host.UNPROTECT {SEXP W : Type} (n : Nat) (h : Host SEXP W) : Host SEXP W :=
  { h with ppStack := h.ppStack.drop n }

/-- The side effect `f` of a conversion, of the routine or of the wrap, applied
to the host: it acts outside the protection stack and the scope depth. -/
def Host.effect {SEXP W : Type} (f : Ambient W → Ambient W) (h : Host SEXP W) : Host SEXP W :=
  { h with ambient := f h.ambient }

/-- Modelled from the spec: construction of `Rcpp::RNGScope` enters the host
random-number-generator scope; `f` is what the constructor does to the
generator state and the rest of the host. -/
def Host.enterRNGScope {SEXP W : Type} (f : Ambient W → Ambient W) (h : Host SEXP W) :
    Host SEXP W :=
  { h with rngScope := h.rngScope + 1, ambient := f h.ambient }

/-- Modelled from the spec: destruction of `Rcpp::RNGScope` releases the host
random-number-generator scope; `f` is what the destructor does to the
generator state and the rest of the host. -/
def Host.exitRNGScope {SEXP W : Type} (f : Ambient W → Ambient W) (h : Host SEXP W) :
    Host SEXP W :=
  { h with rngScope := h.rngScope - 1, ambient := f h.ambient }

/-- One executed statement of the adapter. -/
inductive Step (SEXP DataFrame : Type) where
  /-- Construction of the scope object, `Rcpp::RNGScope __rngScope;` -/
  | rngEnter
  /-- Conversion of one argument, `input_parameter< T >::type p(pSEXP)` -/
  | convert (p : Param)
  /-- Invocation `convertToSccs(...)` with these six values, in this order -/
  | call (cases eras : DataFrame)
      (covariateStart covariatePersistencePeriod naivePeriod : Int) (firstOutcomeOnly : Bool)
  /-- Conversion of the result, `Rcpp::wrap(__result)` -/
  | wrap
  /-- Protection of the wrapped value, `PROTECT(__sexp_result = ...)` -/
  | protect (s : SEXP)
  /-- Destruction of `__rngScope` when its block is left -/
  | rngExit
  /-- Removal of protection, `UNPROTECT(n)` -/
  | unprotect (n : Nat)

/-- A `convert` step. -/
def Step.isConvert {SEXP DataFrame : Type} : Step SEXP DataFrame → Bool
  | .convert _ => true
  | _ => false

/-- A `call` step. -/
def Step.isCall {SEXP DataFrame : Type} : Step SEXP DataFrame → Bool
  | .call _ _ _ _ _ _ => true
  | _ => false

/-- A `protect` step. -/
def Step.isProtect {SEXP DataFrame : Type} : Step SEXP DataFrame → Bool
  | .protect _ => true
  | _ => false

/-- An `unprotect` step. -/
def Step.isUnprotect {SEXP DataFrame : Type} : Step SEXP DataFrame → Bool
  | .unprotect _ => true
  | _ => false

/-- The `rngEnter` step. -/
def Step.isRngEnter {SEXP DataFrame : Type} : Step SEXP DataFrame → Bool
  | .rngEnter => true
  | _ => false

/-- The `rngExit` step. -/
def Step.isRngExit {SEXP DataFrame : Type} : Step SEXP DataFrame → Bool
  | .rngExit => true
  | _ => false

/-- Execution state: the current host state and the log of executed
statements, oldest first, each with the host state right after it. -/
structure Exec (SEXP DataFrame W : Type) where
  host : Host SEXP W
  trace : List (Step SEXP DataFrame × Host SEXP W)

/-- Entry of the adapter: nothing executed yet. -/
def Exec.start {SEXP DataFrame W : Type} (h : Host SEXP W) : Exec SEXP DataFrame W :=
  { host := h, trace := [] }

/-- Execute one statement with effect `f` on the host and log it. -/
def Exec.step {SEXP DataFrame W : Type} (x : Exec SEXP DataFrame W)
    (s : Step SEXP DataFrame) (f : Host SEXP W → Host SEXP W) : Exec SEXP DataFrame W :=
  { host := f x.host, trace := x.trace ++ [(s, f x.host)] }

/-- The statements of the inner block after `__rngScope` is constructed
(lines 15-22): the six argument conversions in declared order, the call of
`convertToSccs`, `Rcpp::wrap` of its result and `PROTECT` of the wrapped value.
Each conversion, the call and the wrap act on the host through their side
effect, whether they return or raise.  A native exception leaves the block at
the statement that raised it.  (The scalar `input_parameter` objects may defer
`Rcpp::as` to the call expression; either way every conversion happens after
line 14 and before the routine runs.) -/
def block {SEXP DataFrame RList Exn W : Type} (rt : Native SEXP DataFrame RList Exn W)
    (a : HostArgs SEXP) (x : Exec SEXP DataFrame W) : Except Exn SEXP × Exec SEXP DataFrame W :=
  let x := x.step (.convert .cases) (Host.effect (rt.asDataFrameEffect a.casesSEXP))
  match rt.asDataFrame a.casesSEXP with
  | .error e => (.error e, x)
  | .ok cases =>
  let x := x.step (.convert .eras) (Host.effect (rt.asDataFrameEffect a.erasSEXP))
  match rt.asDataFrame a.erasSEXP with
  | .error e => (.error e, x)
  | .ok eras =>
  let x := x.step (.convert .covariateStart) (Host.effect (rt.asIntEffect a.covariateStartSEXP))
  match rt.asInt a.covariateStartSEXP with
  | .error e => (.error e, x)
  | .ok covariateStart =>
  let x := x.step (.convert .covariatePersistencePeriod)
    (Host.effect (rt.asIntEffect a.covariatePersistencePeriodSEXP))
  match rt.asInt a.covariatePersistencePeriodSEXP with
  | .error e => (.error e, x)
  | .ok covariatePersistencePeriod =>
  let x := x.step (.convert .naivePeriod) (Host.effect (rt.asIntEffect a.naivePeriodSEXP))
  match rt.asInt a.naivePeriodSEXP with
  | .error e => (.error e, x)
  | .ok naivePeriod =>
  let x := x.step (.convert .firstOutcomeOnly)
    (Host.effect (rt.asBoolEffect a.firstOutcomeOnlySEXP))
  match rt.asBool a.firstOutcomeOnlySEXP with
  | .error e => (.error e, x)
  | .ok firstOutcomeOnly =>
  let x := x.step
    (.call cases eras covariateStart covariatePersistencePeriod naivePeriod firstOutcomeOnly)
    (Host.effect (rt.convertToSccsEffect cases eras covariateStart covariatePersistencePeriod
      naivePeriod firstOutcomeOnly))
  match rt.convertToSccs cases eras covariateStart covariatePersistencePeriod naivePeriod
      firstOutcomeOnly with
  | .error e => (.error e, x)
  | .ok __result =>
  let x := x.step .wrap (Host.effect (rt.wrapEffect __result))
  match rt.wrap __result with
  | .error e => (.error e, x)
  | .ok __sexp_result => (.ok __sexp_result, x.step (.protect __sexp_result) (Host.PROTECT __sexp_result))

/-- The inner block `{ ... }` of lines 13-23 with its scoped object: `__rngScope`
is constructed first and destroyed when the block is left, at the closing
brace or by an exception unwinding through it. -/
def scope {SEXP DataFrame RList Exn W : Type} (rt : Native SEXP DataFrame RList Exn W)
    (a : HostArgs SEXP) (x : Exec SEXP DataFrame W) : Except Exn SEXP × Exec SEXP DataFrame W :=
  let r := block rt a (x.step .rngEnter (Host.enterRNGScope rt.rngScopeEnter))
  (r.1, r.2.step .rngExit (Host.exitRNGScope rt.rngScopeExit))

/-- The statements between BEGIN_RCPP and END_RCPP (lines 12-25): the inner
block, then `UNPROTECT(1); return __sexp_result;` when the block completed. -/
def tryBody {SEXP DataFrame RList Exn W : Type} (rt : Native SEXP DataFrame RList Exn W)
    (a : HostArgs SEXP) (h : Host SEXP W) : Except Exn SEXP × Exec SEXP DataFrame W :=
  match scope rt a (Exec.start h) with
  | (.error e, x) => (.error e, x)
  | (.ok __sexp_result, x) => (.ok __sexp_result, x.step (.unprotect 1) (Host.UNPROTECT 1))

/-- How a call of the adapter ends, as seen by the host. -/
inductive Outcome (SEXP Exn : Type) where
  /-- Normal return of a host value -/
  | value (s : SEXP)
  /-- A host-level error raised by the boundary handler -/
  | hostError (e : Exn)
  /-- A native exception leaving the adapter uncaught -/
  | escaped (e : Exn)

/-- Modelled from the spec: the BEGIN_RCPP / END_RCPP pair of the Rcpp
headers, which the source file uses but does not define: "any exception raised
by the underlying routine or by type-conversion is caught by a generic boundary
handler and reported as a host-level error". -/
def END_RCPP {SEXP Exn : Type} : Except Exn SEXP → Outcome SEXP Exn
  | .ok s => .value s
  | .error e => .hostError e

/-- The exported adapter (lines 10-27). -/
def SelfControlledCaseSeries_convertToSccs {SEXP DataFrame RList Exn W : Type}
    (rt : Native SEXP DataFrame RList Exn W) (a : HostArgs SEXP) (h : Host SEXP W) :
    Outcome SEXP Exn × Exec SEXP DataFrame W :=
  let r := tryBody rt a h
  (END_RCPP r.1, r.2)

/-- The steps of a trace, without the host states. -/
def steps {SEXP DataFrame W : Type} (t : List (Step SEXP DataFrame × Host SEXP W)) :
    List (Step SEXP DataFrame) :=
  t.map Prod.fst

/-- All six conversions of `a` succeed, with these native values. -/
def Converts {SEXP DataFrame RList Exn W : Type} (rt : Native SEXP DataFrame RList Exn W)
    (a : HostArgs SEXP) (cases eras : DataFrame)
    (covariateStart covariatePersistencePeriod naivePeriod : Int) (firstOutcomeOnly : Bool) :
    Prop :=
  rt.asDataFrame a.casesSEXP = .ok cases ∧ rt.asDataFrame a.erasSEXP = .ok eras ∧
  rt.asInt a.covariateStartSEXP = .ok covariateStart ∧
  rt.asInt a.covariatePersistencePeriodSEXP = .ok covariatePersistencePeriod ∧
  rt.asInt a.naivePeriodSEXP = .ok naivePeriod ∧
  rt.asBool a.firstOutcomeOnlySEXP = .ok firstOutcomeOnly

/-- A step of the block that leaves the host state alone: a conversion, the
call of the routine, or the wrap. -/
def Step.isQuiet {SEXP DataFrame : Type} : Step SEXP DataFrame → Bool
  | .convert _ => true
  | .call _ _ _ _ _ _ => true
  | .wrap => true
  | _ => false

/-- The value flow of the adapter with the host state left out: the six
conversions, the routine and the wrap chained in order.  Used only to state
`adapter_outcome`. -/
def pipeline {SEXP DataFrame RList Exn W : Type} (rt : Native SEXP DataFrame RList Exn W)
    (a : HostArgs SEXP) : Except Exn SEXP :=
  rt.asDataFrame a.casesSEXP >>= fun c =>
  rt.asDataFrame a.erasSEXP >>= fun e =>
  rt.asInt a.covariateStartSEXP >>= fun cs =>
  rt.asInt a.covariatePersistencePeriodSEXP >>= fun cp =>
  rt.asInt a.naivePeriodSEXP >>= fun np =>
  rt.asBool a.firstOutcomeOnlySEXP >>= fun fo =>
  rt.convertToSccs c e cs cp np fo >>= fun L => rt.wrap L

/-- Some conversion of the six incoming values raises `e`. -/
def ConversionFails {SEXP DataFrame RList Exn W : Type} (rt : Native SEXP DataFrame RList Exn W)
    (a : HostArgs SEXP) (e : Exn) : Prop :=
  rt.asDataFrame a.casesSEXP = .error e ∨ rt.asDataFrame a.erasSEXP = .error e ∨
  rt.asInt a.covariateStartSEXP = .error e ∨
  rt.asInt a.covariatePersistencePeriodSEXP = .error e ∨
  rt.asInt a.naivePeriodSEXP = .error e ∨
  rt.asBool a.firstOutcomeOnlySEXP = .error e

/-- The conversions, the routine and the wrap have no side effect on the host. -/
structure NoSideEffects {SEXP DataFrame RList Exn W : Type}
    (rt : Native SEXP DataFrame RList Exn W) : Prop where
  asDataFrame : ∀ s w, rt.asDataFrameEffect s w = w
  asInt : ∀ s w, rt.asIntEffect s w = w
  asBool : ∀ s w, rt.asBoolEffect s w = w
  convertToSccs : ∀ c e cs cp np fo w, rt.convertToSccsEffect c e cs cp np fo w = w
  wrap : ∀ L w, rt.wrapEffect L w = w

/-- Execution state `y` is reached from `x` by quiet steps only: the
protection stack and the scope depth are those of `x` after every step, and so
is the rest of the host when the steps have no side effects. -/
def QuietExt {SEXP DataFrame RList Exn W : Type} (rt : Native SEXP DataFrame RList Exn W)
    (x y : Exec SEXP DataFrame W) : Prop :=
  y.host.ppStack = x.host.ppStack ∧ y.host.rngScope = x.host.rngScope ∧
  (NoSideEffects rt → y.host.ambient = x.host.ambient) ∧
  ∃ mid, y.trace = x.trace ++ mid ∧
    ∀ p ∈ mid, p.1.isQuiet = true ∧ p.2.ppStack = x.host.ppStack ∧
      p.2.rngScope = x.host.rngScope

/-- What a run of the block from `x` looks like: after an exception only quiet
steps have run; after a normal exit the six conversions succeeded, the routine
returned `L`, the wrap returned `v`, and the run is quiet steps up to the
call, then the wrap, then `PROTECT(v)`. -/
def BlockPath {SEXP DataFrame RList Exn W : Type} (rt : Native SEXP DataFrame RList Exn W)
    (a : HostArgs SEXP) (x : Exec SEXP DataFrame W) :
    Except Exn SEXP × Exec SEXP DataFrame W → Prop
  | (.error _, y) => QuietExt rt x y
  | (.ok v, y) =>
    ∃ c e cs cp np fo L xq, Converts rt a c e cs cp np fo ∧
      rt.convertToSccs c e cs cp np fo = .ok L ∧ rt.wrap L = .ok v ∧ QuietExt rt x xq ∧
      y = (xq.step .wrap (Host.effect (rt.wrapEffect L))).step (.protect v) (Host.PROTECT v)

/-! ## A concrete runtime for evaluation

Host values, data frames and result lists are lists of integers; exceptions
are strings. -/

/-- Example conversions: the empty host value is not a data frame; an integer
is a host value of length one; a boolean is the host value `[0]` or `[1]`;
`wrap` refuses lists longer than six.  The example routine rejects a negative
naive period and otherwise returns a list built from its arguments.  None of
them has a side effect; entering the scope puts a mark in front of the
generator state and releasing it takes the mark away. -/
def exRt : Native (List Int) (List Int) (List Int) String Nat where
  asDataFrame := fun s => if s = [] then .error "not a data frame" else .ok s
  asInt := fun s =>
    match s with
    | [n] => .ok n
    | _ => .error "not an int"
  asBool := fun s =>
    match s with
    | [0] => .ok false
    | [1] => .ok true
    | _ => .error "not a bool"
  wrap := fun l => if l.length ≤ 6 then .ok l else .error "result too long"
  convertToSccs := fun c e cs cp np fo =>
    if np < 0 then .error "negative naive period"
    else if fo then .ok [c.sum, e.sum, cs, cp, np]
    else .ok [c.sum, e.sum, cs, cp, np, 0, 0]
  asDataFrameEffect := fun _ w => w
  asIntEffect := fun _ w => w
  asBoolEffect := fun _ w => w
  wrapEffect := fun _ w => w
  convertToSccsEffect := fun _ _ _ _ _ _ w => w
  rngScopeEnter := fun w => { w with rngState := 0 :: w.rngState }
  rngScopeExit := fun w => { w with rngState := w.rngState.tail }

/-- Example call: all conversions succeed and the routine returns a list. -/
def exArgs : HostArgs (List Int) :=
  { casesSEXP := [1, 2], erasSEXP := [3], covariateStartSEXP := [4],
    covariatePersistencePeriodSEXP := [5], naivePeriodSEXP := [6],
    firstOutcomeOnlySEXP := [1] }

/-- Example host state: one entry already protected, no scope entered. -/
def exHost : Host (List Int) Nat :=
  { ppStack := [[9]], rngScope := 0, ambient := { rngState := [7, 8], rest := 42 } }

/-- Example call on which the routine raises: the naive period is negative. -/
def exArgsRaise : HostArgs (List Int) :=
  { exArgs with naivePeriodSEXP := [-1] }

/-- Example call with a failing conversion: `firstOutcomeOnly` is not a boolean. -/
def exArgsBad : HostArgs (List Int) :=
  { exArgs with firstOutcomeOnlySEXP := [2] }

/-! ## Path lemmas -/

/-- No step is a quiet extension. -/
theorem QuietExt.refl {SEXP DataFrame RList Exn W : Type}
    (rt : Native SEXP DataFrame RList Exn W) (x : Exec SEXP DataFrame W) : QuietExt rt x x :=
  ⟨rfl, rfl, fun _ => rfl, [], by simp, by simp⟩

/-- A quiet step with a side effect extends a quiet extension. -/
theorem QuietExt.step {SEXP DataFrame RList Exn W : Type}
    {rt : Native SEXP DataFrame RList Exn W} {x y : Exec SEXP DataFrame W}
    (q : QuietExt rt x y) {s : Step SEXP DataFrame} {f : Ambient W → Ambient W}
    (hs : s.isQuiet = true) (hf : NoSideEffects rt → ∀ w, f w = w) :
    QuietExt rt x (y.step s (Host.effect f)) := by
  obtain ⟨h1, h2, h3, mid, h4, h5⟩ := q
  refine ⟨h1, h2, fun hn => ?_, mid ++ [(s, Host.effect f y.host)], ?_, ?_⟩
  · show f y.host.ambient = x.host.ambient
    rw [hf hn, h3 hn]
  · simp [Exec.step, h4]
  · intro p hp
    rcases List.mem_append.1 hp with hp | hp
    · exact h5 p hp
    · simp only [List.mem_singleton] at hp
      subst hp
      exact ⟨hs, h1, h2⟩

/-- Every run of the block has the shape `BlockPath`. -/
theorem block_paths {SEXP DataFrame RList Exn W : Type}
    (rt : Native SEXP DataFrame RList Exn W) (a : HostArgs SEXP) (x : Exec SEXP DataFrame W) :
    BlockPath rt a x (block rt a x) := by
  have q1 : QuietExt rt x
      (x.step (.convert .cases) (Host.effect (rt.asDataFrameEffect a.casesSEXP))) :=
    (QuietExt.refl rt x).step rfl (fun hn w => hn.asDataFrame _ w)
  have q2 := q1.step (s := .convert .eras) (f := rt.asDataFrameEffect a.erasSEXP) rfl
    (fun hn w => hn.asDataFrame _ w)
  have q3 := q2.step (s := .convert .covariateStart) (f := rt.asIntEffect a.covariateStartSEXP)
    rfl (fun hn w => hn.asInt _ w)
  have q4 := q3.step (s := .convert .covariatePersistencePeriod)
    (f := rt.asIntEffect a.covariatePersistencePeriodSEXP) rfl (fun hn w => hn.asInt _ w)
  have q5 := q4.step (s := .convert .naivePeriod) (f := rt.asIntEffect a.naivePeriodSEXP)
    rfl (fun hn w => hn.asInt _ w)
  have q6 := q5.step (s := .convert .firstOutcomeOnly)
    (f := rt.asBoolEffect a.firstOutcomeOnlySEXP) rfl (fun hn w => hn.asBool _ w)
  unfold block
  cases h1 : rt.asDataFrame a.casesSEXP with
  | error e => exact q1
  | ok c =>
  cases h2 : rt.asDataFrame a.erasSEXP with
  | error e => simpa only [BlockPath, h2] using q2
  | ok er =>
  cases h3 : rt.asInt a.covariateStartSEXP with
  | error e => simpa only [BlockPath, h2, h3] using q3
  | ok cs =>
  cases h4 : rt.asInt a.covariatePersistencePeriodSEXP with
  | error e => simpa only [BlockPath, h2, h3, h4] using q4
  | ok cp =>
  cases h5 : rt.asInt a.naivePeriodSEXP with
  | error e => simpa only [BlockPath, h2, h3, h4, h5] using q5
  | ok np =>
  cases h6 : rt.asBool a.firstOutcomeOnlySEXP with
  | error e => simpa only [BlockPath, h2, h3, h4, h5, h6] using q6
  | ok fo =>
  have q7 := q6.step (s := .call c er cs cp np fo)
    (f := rt.convertToSccsEffect c er cs cp np fo) rfl (fun hn w => hn.convertToSccs _ _ _ _ _ _ w)
  cases h7 : rt.convertToSccs c er cs cp np fo with
  | error e => simpa only [BlockPath, h2, h3, h4, h5, h6, h7] using q7
  | ok L =>
  cases h8 : rt.wrap L with
  | error e =>
    simpa only [BlockPath, h2, h3, h4, h5, h6, h7, h8] using
      q7.step (s := .wrap) (f := rt.wrapEffect L) rfl (fun hn w => hn.wrap _ w)
  | ok v =>
    simp only [BlockPath, h2, h3, h4, h5, h6, h7, h8]
    exact ⟨c, er, cs, cp, np, fo, L, _, ⟨h1, h2, h3, h4, h5, h6⟩, h7, h8, q7, rfl⟩

/-- Every call of the adapter ends in one of two shapes.  Error path: the
outcome is a host-level error and the trace is the scope entry, quiet steps
inside the scope, and the scope release.  Success path: the conversions, the
routine and the wrap succeeded and the trace is the scope entry, quiet steps,
the wrap, `PROTECT`, the scope release and `UNPROTECT(1)`. -/
theorem adapter_paths {SEXP DataFrame RList Exn W : Type}
    (rt : Native SEXP DataFrame RList Exn W) (a : HostArgs SEXP) (h : Host SEXP W) :
    (∃ e mid hx, SelfControlledCaseSeries_convertToSccs rt a h =
        (.hostError e,
         { host := hx,
           trace := (.rngEnter, Host.enterRNGScope rt.rngScopeEnter h) ::
             (mid ++ [(.rngExit, hx)]) }) ∧
        (∀ p ∈ mid, p.1.isQuiet = true ∧ p.2.ppStack = h.ppStack ∧
          p.2.rngScope = h.rngScope + 1) ∧
        hx.ppStack = h.ppStack ∧ hx.rngScope = h.rngScope ∧
        (NoSideEffects rt → hx.ambient = rt.rngScopeExit (rt.rngScopeEnter h.ambient))) ∨
    (∃ c e cs cp np fo L v mid hw, Converts rt a c e cs cp np fo ∧
        rt.convertToSccs c e cs cp np fo = .ok L ∧ rt.wrap L = .ok v ∧
        SelfControlledCaseSeries_convertToSccs rt a h =
          (.value v,
           { host := Host.UNPROTECT 1 (Host.exitRNGScope rt.rngScopeExit (Host.PROTECT v hw)),
             trace := (.rngEnter, Host.enterRNGScope rt.rngScopeEnter h) ::
               (mid ++ [(.wrap, hw), (.protect v, Host.PROTECT v hw),
                 (.rngExit, Host.exitRNGScope rt.rngScopeExit (Host.PROTECT v hw)),
                 (.unprotect 1,
                   Host.UNPROTECT 1 (Host.exitRNGScope rt.rngScopeExit (Host.PROTECT v hw)))]) }) ∧
        (∀ p ∈ mid, p.1.isQuiet = true ∧ p.2.ppStack = h.ppStack ∧
          p.2.rngScope = h.rngScope + 1) ∧
        hw.ppStack = h.ppStack ∧ hw.rngScope = h.rngScope + 1 ∧
        (NoSideEffects rt → hw.ambient = rt.rngScopeEnter h.ambient)) := by
  have hb := block_paths rt a ((Exec.start h).step .rngEnter (Host.enterRNGScope rt.rngScopeEnter))
  rcases hblk : block rt a ((Exec.start h).step .rngEnter (Host.enterRNGScope rt.rngScopeEnter))
    with ⟨r, y⟩
  rw [hblk] at hb
  cases r with
  | error e =>
    obtain ⟨h1, h2, h3, mid, h4, h5⟩ := hb
    refine Or.inl ⟨e, mid, Host.exitRNGScope rt.rngScopeExit y.host, ?_, h5, ?_, ?_, ?_⟩
    · simp only [SelfControlledCaseSeries_convertToSccs, tryBody, scope, hblk, END_RCPP]
      simp [Exec.step, Exec.start] at h4
      simp [Exec.step, h4]
    · exact h1
    · show y.host.rngScope - 1 = h.rngScope
      rw [h2]; rfl
    · intro hn
      show rt.rngScopeExit y.host.ambient = _
      rw [h3 hn]; rfl
  | ok v =>
    obtain ⟨c, e, cs, cp, np, fo, L, xq, hc, hr, hw, ⟨h1, h2, h3, mid, h4, h5⟩, hy⟩ := hb
    refine Or.inr ⟨c, e, cs, cp, np, fo, L, v, mid, Host.effect (rt.wrapEffect L) xq.host,
      hc, hr, hw, ?_, h5, h1, h2, ?_⟩
    · simp only [SelfControlledCaseSeries_convertToSccs, tryBody, scope, hblk, END_RCPP]
      simp [Exec.step, Exec.start] at h4
      simp [Exec.step, hy, h4]
    · intro hn
      show rt.wrapEffect L xq.host.ambient = _
      rw [hn.wrap, h3 hn]; rfl

/-- The outcome of the adapter is the boundary handler applied to the chained
value flow; it does not depend on the host state. -/
theorem adapter_outcome {SEXP DataFrame RList Exn W : Type}
    (rt : Native SEXP DataFrame RList Exn W) (a : HostArgs SEXP) (h : Host SEXP W) :
    (SelfControlledCaseSeries_convertToSccs rt a h).1 = END_RCPP (pipeline rt a) := by
  simp only [SelfControlledCaseSeries_convertToSccs, tryBody, scope, block, pipeline]
  cases rt.asDataFrame a.casesSEXP with
  | error e => rfl
  | ok c =>
  cases rt.asDataFrame a.erasSEXP with
  | error e => rfl
  | ok er =>
  cases rt.asInt a.covariateStartSEXP with
  | error e => rfl
  | ok cs =>
  cases rt.asInt a.covariatePersistencePeriodSEXP with
  | error e => rfl
  | ok cp =>
  cases rt.asInt a.naivePeriodSEXP with
  | error e => rfl
  | ok np =>
  cases rt.asBool a.firstOutcomeOnlySEXP with
  | error e => rfl
  | ok fo =>
  cases h7 : rt.convertToSccs c er cs cp np fo with
  | error e => simp [h7, END_RCPP, bind, Except.bind]
  | ok L =>
  cases h8 : rt.wrap L with
  | error e => simp [h7, h8, END_RCPP, bind, Except.bind]
  | ok v => simp [h7, h8, END_RCPP, bind, Except.bind]

/-- With all six conversions successful the value flow is the routine on the
converted values followed by the wrap. -/
theorem pipeline_of_converts {SEXP DataFrame RList Exn W : Type}
    (rt : Native SEXP DataFrame RList Exn W) (a : HostArgs SEXP) (c e : DataFrame)
    (cs cp np : Int) (fo : Bool) (hc : Converts rt a c e cs cp np fo) :
    pipeline rt a = (rt.convertToSccs c e cs cp np fo >>= fun L => rt.wrap L) := by
  obtain ⟨h1, h2, h3, h4, h5, h6⟩ := hc
  simp [pipeline, h1, h2, h3, h4, h5, h6, bind, Except.bind]

/-- With all six conversions successful, the only `call` step of the trace is
the call on the six converted values, whatever the routine and the wrap do. -/
theorem calls_of_converts {SEXP DataFrame RList Exn W : Type}
    (rt : Native SEXP DataFrame RList Exn W) (a : HostArgs SEXP) (h : Host SEXP W)
    (c e : DataFrame) (cs cp np : Int) (fo : Bool) (hc : Converts rt a c e cs cp np fo) :
    (steps (SelfControlledCaseSeries_convertToSccs rt a h).2.trace).filter Step.isCall =
      [Step.call c e cs cp np fo] := by
  obtain ⟨h1, h2, h3, h4, h5, h6⟩ := hc
  cases hr : rt.convertToSccs c e cs cp np fo with
  | error x =>
    simp [SelfControlledCaseSeries_convertToSccs, tryBody, scope, block, Exec.step, Exec.start,
      steps, Step.isCall, h1, h2, h3, h4, h5, h6, hr]
  | ok L =>
    cases hw : rt.wrap L with
    | error x =>
      simp [SelfControlledCaseSeries_convertToSccs, tryBody, scope, block, Exec.step, Exec.start,
        steps, Step.isCall, h1, h2, h3, h4, h5, h6, hr, hw]
    | ok v =>
      simp [SelfControlledCaseSeries_convertToSccs, tryBody, scope, block, Exec.step, Exec.start,
        steps, Step.isCall, h1, h2, h3, h4, h5, h6, hr, hw]

/-- Quiet steps are neither PROTECT nor UNPROTECT. -/
theorem filter_stack_steps_quiet {SEXP DataFrame W : Type}
    (mid : List (Step SEXP DataFrame × Host SEXP W))
    (hq : ∀ p ∈ mid, p.1.isQuiet = true) :
    (steps mid).filter (fun s => s.isProtect || s.isUnprotect) = [] := by
  rw [List.filter_eq_nil_iff]
  intro s hs
  simp only [steps, List.mem_map] at hs
  obtain ⟨p, hp, rfl⟩ := hs
  have := hq p hp
  cases hp1 : p.1 <;> simp_all [Step.isQuiet, Step.isProtect, Step.isUnprotect]

/-- Quiet steps neither enter nor release the scope. -/
theorem quiet_not_scope {SEXP DataFrame : Type} (s : Step SEXP DataFrame)
    (hq : s.isQuiet = true) : s.isRngEnter = false ∧ s.isRngExit = false := by
  cases s <;> simp_all [Step.isQuiet, Step.isRngEnter, Step.isRngExit]

/-- The steps of a trace that starts with one more entry. -/
theorem steps_cons {SEXP DataFrame W : Type} (p : Step SEXP DataFrame × Host SEXP W)
    (t : List (Step SEXP DataFrame × Host SEXP W)) : steps (p :: t) = p.1 :: steps t := rfl

/-- The steps of two traces in a row. -/
theorem steps_append {SEXP DataFrame W : Type}
    (t u : List (Step SEXP DataFrame × Host SEXP W)) : steps (t ++ u) = steps t ++ steps u := by
  simp [steps]

/-! ## The claims -/

/-- C1: on a well-formed call (all six conversions succeed) the routine is
invoked on exactly the six converted values, each in its declared position:
the only call recorded is the call on `(cases, eras, covariateStart,
covariatePersistencePeriod, naivePeriod, firstOutcomeOnly)`, and the outcome of
the adapter is the outcome of the routine on those six values, wrapped. -/
theorem C1_forwards_six_arguments {SEXP DataFrame RList Exn W : Type}
    (rt : Native SEXP DataFrame RList Exn W) (a : HostArgs SEXP) (h : Host SEXP W)
    (cases eras : DataFrame) (covariateStart covariatePersistencePeriod naivePeriod : Int)
    (firstOutcomeOnly : Bool)
    (hc : Converts rt a cases eras covariateStart covariatePersistencePeriod naivePeriod
      firstOutcomeOnly) :
    (steps (SelfControlledCaseSeries_convertToSccs rt a h).2.trace).filter Step.isCall =
      [Step.call cases eras covariateStart covariatePersistencePeriod naivePeriod
        firstOutcomeOnly] ∧
    (SelfControlledCaseSeries_convertToSccs rt a h).1 =
      END_RCPP (rt.convertToSccs cases eras covariateStart covariatePersistencePeriod
        naivePeriod firstOutcomeOnly >>= fun L => rt.wrap L) :=
  ⟨calls_of_converts rt a h _ _ _ _ _ _ hc,
   by rw [adapter_outcome, pipeline_of_converts rt a _ _ _ _ _ _ hc]⟩

/-- Witness of C1 on the example call. -/
theorem C1_forwards_six_arguments_witness :
    Converts exRt exArgs [1, 2] [3] 4 5 6 true ∧
    ((steps (SelfControlledCaseSeries_convertToSccs exRt exArgs exHost).2.trace).filter
        Step.isCall = [Step.call [1, 2] [3] 4 5 6 true] ∧
      (SelfControlledCaseSeries_convertToSccs exRt exArgs exHost).1 =
        END_RCPP (exRt.convertToSccs [1, 2] [3] 4 5 6 true >>= fun L => exRt.wrap L)) :=
  ⟨⟨rfl, rfl, rfl, rfl, rfl, rfl⟩,
   C1_forwards_six_arguments exRt exArgs exHost [1, 2] [3] 4 5 6 true
     ⟨rfl, rfl, rfl, rfl, rfl, rfl⟩⟩

/-- C2: on a well-formed call on which the routine returns a list `L` whose
host representation `Rcpp::wrap(L)` is `v`, the adapter returns `v` itself,
the very value that `Rcpp::wrap` produced; whatever `Rcpp::wrap(L)` does, the
adapter ends exactly as it does. -/
theorem C2_returns_wrapped_result {SEXP DataFrame RList Exn W : Type}
    (rt : Native SEXP DataFrame RList Exn W) (a : HostArgs SEXP) (h : Host SEXP W)
    (cases eras : DataFrame) (covariateStart covariatePersistencePeriod naivePeriod : Int)
    (firstOutcomeOnly : Bool) (L : RList) (v : SEXP)
    (hc : Converts rt a cases eras covariateStart covariatePersistencePeriod naivePeriod
      firstOutcomeOnly)
    (hr : rt.convertToSccs cases eras covariateStart covariatePersistencePeriod naivePeriod
      firstOutcomeOnly = .ok L)
    (hw : rt.wrap L = .ok v) :
    (SelfControlledCaseSeries_convertToSccs rt a h).1 = Outcome.value v ∧
    (SelfControlledCaseSeries_convertToSccs rt a h).1 = END_RCPP (rt.wrap L) := by
  have key : (SelfControlledCaseSeries_convertToSccs rt a h).1 = END_RCPP (rt.wrap L) := by
    rw [adapter_outcome, pipeline_of_converts rt a _ _ _ _ _ _ hc, hr]; rfl
  refine ⟨?_, key⟩
  rw [key, hw]; rfl

/-- Witness of C2 on the example call: the routine returns `[3, 3, 4, 5, 6]`,
its host representation is `[3, 3, 4, 5, 6]`, and the adapter returns it. -/
theorem C2_returns_wrapped_result_witness :
    Converts exRt exArgs [1, 2] [3] 4 5 6 true ∧
    exRt.convertToSccs [1, 2] [3] 4 5 6 true = .ok [3, 3, 4, 5, 6] ∧
    exRt.wrap [3, 3, 4, 5, 6] = .ok [3, 3, 4, 5, 6] ∧
    ((SelfControlledCaseSeries_convertToSccs exRt exArgs exHost).1 =
        Outcome.value [3, 3, 4, 5, 6] ∧
      (SelfControlledCaseSeries_convertToSccs exRt exArgs exHost).1 =
        END_RCPP (exRt.wrap [3, 3, 4, 5, 6])) :=
  ⟨⟨rfl, rfl, rfl, rfl, rfl, rfl⟩, rfl, rfl,
   C2_returns_wrapped_result exRt exArgs exHost [1, 2] [3] 4 5 6 true [3, 3, 4, 5, 6]
     [3, 3, 4, 5, 6] ⟨rfl, rfl, rfl, rfl, rfl, rfl⟩ rfl rfl⟩

/-- C3: when the routine raises `e` (on a call whose conversions succeed), the
adapter ends in a host-level error for `e`: it returns no normal value and no
native exception leaves it uncaught. -/
theorem C3_routine_error_becomes_host_error {SEXP DataFrame RList Exn W : Type}
    (rt : Native SEXP DataFrame RList Exn W) (a : HostArgs SEXP) (h : Host SEXP W)
    (cases eras : DataFrame) (covariateStart covariatePersistencePeriod naivePeriod : Int)
    (firstOutcomeOnly : Bool) (e : Exn)
    (hc : Converts rt a cases eras covariateStart covariatePersistencePeriod naivePeriod
      firstOutcomeOnly)
    (hr : rt.convertToSccs cases eras covariateStart covariatePersistencePeriod naivePeriod
      firstOutcomeOnly = .error e) :
    (SelfControlledCaseSeries_convertToSccs rt a h).1 = Outcome.hostError e ∧
    (∀ v, (SelfControlledCaseSeries_convertToSccs rt a h).1 ≠ Outcome.value v) ∧
    (∀ x, (SelfControlledCaseSeries_convertToSccs rt a h).1 ≠ Outcome.escaped x) := by
  have key : (SelfControlledCaseSeries_convertToSccs rt a h).1 = Outcome.hostError e := by
    rw [adapter_outcome, pipeline_of_converts rt a _ _ _ _ _ _ hc, hr]; rfl
  refine ⟨key, fun v hv => ?_, fun x hx => ?_⟩
  · rw [key] at hv; cases hv
  · rw [key] at hx; cases hx

/-- Witness of C3: the example routine rejects the negative naive period. -/
theorem C3_routine_error_becomes_host_error_witness :
    Converts exRt exArgsRaise [1, 2] [3] 4 5 (-1) true ∧
    exRt.convertToSccs [1, 2] [3] 4 5 (-1) true = .error "negative naive period" ∧
    ((SelfControlledCaseSeries_convertToSccs exRt exArgsRaise exHost).1 =
        Outcome.hostError "negative naive period" ∧
      (∀ v, (SelfControlledCaseSeries_convertToSccs exRt exArgsRaise exHost).1 ≠
        Outcome.value v) ∧
      (∀ x, (SelfControlledCaseSeries_convertToSccs exRt exArgsRaise exHost).1 ≠
        Outcome.escaped x)) :=
  ⟨⟨rfl, rfl, rfl, rfl, rfl, rfl⟩, rfl,
   C3_routine_error_becomes_host_error exRt exArgsRaise exHost [1, 2] [3] 4 5 (-1) true
     "negative naive period" ⟨rfl, rfl, rfl, rfl, rfl, rfl⟩ rfl⟩

/-- C4: when the conversion of any of the six incoming values fails, the
adapter ends in a host-level error for the exception `e` of a failing
conversion, produced by the same handler as for the routine: the outcome is
the very outcome of any call on which the conversions succeed and the routine
raises `e`. -/
theorem C4_conversion_error_same_handler {SEXP DataFrame RList Exn W : Type}
    (rt : Native SEXP DataFrame RList Exn W) (a : HostArgs SEXP) (h : Host SEXP W)
    (hf : ∃ e, ConversionFails rt a e) :
    ∃ e, ConversionFails rt a e ∧
      (SelfControlledCaseSeries_convertToSccs rt a h).1 = Outcome.hostError e ∧
      ∀ (rt2 : Native SEXP DataFrame RList Exn W) (a2 : HostArgs SEXP) (h2 : Host SEXP W)
        (cases eras : DataFrame) (covariateStart covariatePersistencePeriod naivePeriod : Int)
        (firstOutcomeOnly : Bool),
        Converts rt2 a2 cases eras covariateStart covariatePersistencePeriod naivePeriod
          firstOutcomeOnly →
        rt2.convertToSccs cases eras covariateStart covariatePersistencePeriod naivePeriod
          firstOutcomeOnly = .error e →
        (SelfControlledCaseSeries_convertToSccs rt2 a2 h2).1 =
          (SelfControlledCaseSeries_convertToSccs rt a h).1 := by
  have routine : ∀ (e : Exn), (SelfControlledCaseSeries_convertToSccs rt a h).1 =
      Outcome.hostError e →
      ∀ (rt2 : Native SEXP DataFrame RList Exn W) (a2 : HostArgs SEXP) (h2 : Host SEXP W)
        (cases eras : DataFrame) (covariateStart covariatePersistencePeriod naivePeriod : Int)
        (firstOutcomeOnly : Bool),
        Converts rt2 a2 cases eras covariateStart covariatePersistencePeriod naivePeriod
          firstOutcomeOnly →
        rt2.convertToSccs cases eras covariateStart covariatePersistencePeriod naivePeriod
          firstOutcomeOnly = .error e →
        (SelfControlledCaseSeries_convertToSccs rt2 a2 h2).1 =
          (SelfControlledCaseSeries_convertToSccs rt a h).1 := by
    intro e he rt2 a2 h2 c er cs cp np fo hc hr
    rw [he, adapter_outcome, pipeline_of_converts rt2 a2 _ _ _ _ _ _ hc, hr]; rfl
  have out : ∀ (e : Exn), pipeline rt a = .error e →
      (SelfControlledCaseSeries_convertToSccs rt a h).1 = Outcome.hostError e := by
    intro e he
    rw [adapter_outcome, he]; rfl
  cases h1 : rt.asDataFrame a.casesSEXP with
  | error e =>
    have ho := out e (by simp [pipeline, h1, bind, Except.bind])
    exact ⟨e, Or.inl h1, ho, routine e ho⟩
  | ok c =>
  cases h2 : rt.asDataFrame a.erasSEXP with
  | error e =>
    have ho := out e (by simp [pipeline, h1, h2, bind, Except.bind])
    exact ⟨e, Or.inr (Or.inl h2), ho, routine e ho⟩
  | ok er =>
  cases h3 : rt.asInt a.covariateStartSEXP with
  | error e =>
    have ho := out e (by simp [pipeline, h1, h2, h3, bind, Except.bind])
    exact ⟨e, Or.inr (Or.inr (Or.inl h3)), ho, routine e ho⟩
  | ok cs =>
  cases h4 : rt.asInt a.covariatePersistencePeriodSEXP with
  | error e =>
    have ho := out e (by simp [pipeline, h1, h2, h3, h4, bind, Except.bind])
    exact ⟨e, Or.inr (Or.inr (Or.inr (Or.inl h4))), ho, routine e ho⟩
  | ok cp =>
  cases h5 : rt.asInt a.naivePeriodSEXP with
  | error e =>
    have ho := out e (by simp [pipeline, h1, h2, h3, h4, h5, bind, Except.bind])
    exact ⟨e, Or.inr (Or.inr (Or.inr (Or.inr (Or.inl h5)))), ho, routine e ho⟩
  | ok np =>
  cases h6 : rt.asBool a.firstOutcomeOnlySEXP with
  | error e =>
    have ho := out e (by simp [pipeline, h1, h2, h3, h4, h5, h6, bind, Except.bind])
    exact ⟨e, Or.inr (Or.inr (Or.inr (Or.inr (Or.inr h6)))), ho, routine e ho⟩
  | ok fo =>
    obtain ⟨e, he⟩ := hf
    simp [ConversionFails, h1, h2, h3, h4, h5, h6] at he

/-- Witness of C4: on the example call whose last argument is not a boolean
the hypothesis holds, and the theorem applies. -/
theorem C4_conversion_error_same_handler_witness :
    (∃ e, ConversionFails exRt exArgsBad e) ∧
    ∃ e, ConversionFails exRt exArgsBad e ∧
      (SelfControlledCaseSeries_convertToSccs exRt exArgsBad exHost).1 = Outcome.hostError e ∧
      ∀ (rt2 : Native (List Int) (List Int) (List Int) String Nat) (a2 : HostArgs (List Int))
        (h2 : Host (List Int) Nat)
        (cases eras : List Int) (covariateStart covariatePersistencePeriod naivePeriod : Int)
        (firstOutcomeOnly : Bool),
        Converts rt2 a2 cases eras covariateStart covariatePersistencePeriod naivePeriod
          firstOutcomeOnly →
        rt2.convertToSccs cases eras covariateStart covariatePersistencePeriod naivePeriod
          firstOutcomeOnly = .error e →
        (SelfControlledCaseSeries_convertToSccs rt2 a2 h2).1 =
          (SelfControlledCaseSeries_convertToSccs exRt exArgsBad exHost).1 :=
  ⟨⟨"not a bool", Or.inr (Or.inr (Or.inr (Or.inr (Or.inr rfl))))⟩,
   C4_conversion_error_same_handler exRt exArgsBad exHost
     ⟨"not a bool", Or.inr (Or.inr (Or.inr (Or.inr (Or.inr rfl))))⟩⟩

/-- C7: on a well-formed call (all six conversions succeed) the routine is
invoked exactly once, whether it returns or raises: the trace holds one `call`
step, and the adapter reports a host-level error only for an exception that
the routine or the wrap of its result raised, never for the values of the
input. -/
theorem C7_routine_invoked_exactly_once {SEXP DataFrame RList Exn W : Type}
    (rt : Native SEXP DataFrame RList Exn W) (a : HostArgs SEXP) (h : Host SEXP W)
    (cases eras : DataFrame) (covariateStart covariatePersistencePeriod naivePeriod : Int)
    (firstOutcomeOnly : Bool)
    (hc : Converts rt a cases eras covariateStart covariatePersistencePeriod naivePeriod
      firstOutcomeOnly) :
    ((steps (SelfControlledCaseSeries_convertToSccs rt a h).2.trace).filter
      Step.isCall).length = 1 ∧
    ∀ e, (SelfControlledCaseSeries_convertToSccs rt a h).1 = Outcome.hostError e →
      rt.convertToSccs cases eras covariateStart covariatePersistencePeriod naivePeriod
          firstOutcomeOnly = .error e ∨
      ∃ L, rt.convertToSccs cases eras covariateStart covariatePersistencePeriod naivePeriod
          firstOutcomeOnly = .ok L ∧ rt.wrap L = .error e := by
  refine ⟨by rw [calls_of_converts rt a h _ _ _ _ _ _ hc]; rfl, fun e he => ?_⟩
  rw [adapter_outcome, pipeline_of_converts rt a _ _ _ _ _ _ hc] at he
  cases hr : rt.convertToSccs cases eras covariateStart covariatePersistencePeriod naivePeriod
      firstOutcomeOnly with
  | error x =>
    rw [hr] at he
    simp [END_RCPP, bind, Except.bind] at he
    exact Or.inl (by rw [he])
  | ok L =>
    rw [hr] at he
    cases hw : rt.wrap L with
    | error x =>
      simp [END_RCPP, bind, Except.bind, hw] at he
      exact Or.inr ⟨L, rfl, by rw [hw, he]⟩
    | ok v => simp [END_RCPP, bind, Except.bind, hw] at he

/-- Witness of C7 on the example call on which the routine raises: one call,
and the host-level error reported is the exception of the routine. -/
theorem C7_routine_invoked_exactly_once_witness :
    Converts exRt exArgsRaise [1, 2] [3] 4 5 (-1) true ∧
    ((steps (SelfControlledCaseSeries_convertToSccs exRt exArgsRaise exHost).2.trace).filter
        Step.isCall).length = 1 ∧
    (SelfControlledCaseSeries_convertToSccs exRt exArgsRaise exHost).1 =
      Outcome.hostError "negative naive period" ∧
    (exRt.convertToSccs [1, 2] [3] 4 5 (-1) true = .error "negative naive period" ∨
      ∃ L, exRt.convertToSccs [1, 2] [3] 4 5 (-1) true = .ok L ∧
        exRt.wrap L = .error "negative naive period") :=
  ⟨⟨rfl, rfl, rfl, rfl, rfl, rfl⟩,
   (C7_routine_invoked_exactly_once exRt exArgsRaise exHost [1, 2] [3] 4 5 (-1) true
     ⟨rfl, rfl, rfl, rfl, rfl, rfl⟩).1,
   rfl,
   (C7_routine_invoked_exactly_once exRt exArgsRaise exHost [1, 2] [3] 4 5 (-1) true
     ⟨rfl, rfl, rfl, rfl, rfl, rfl⟩).2 "negative naive period" rfl⟩

/-- C9: the adapter leaves the protection stack as it found it on every path.
On the success path its only stack operations are one PROTECT of the result
followed by one `UNPROTECT(1)`, and the UNPROTECT runs on a stack whose top is
the entry the adapter pushed; on every other path (a conversion, the routine
or the wrap raising) it executes neither a PROTECT nor an UNPROTECT. -/
theorem C9_protection_stack_balanced {SEXP DataFrame RList Exn W : Type}
    (rt : Native SEXP DataFrame RList Exn W) (a : HostArgs SEXP) (h : Host SEXP W) :
    (SelfControlledCaseSeries_convertToSccs rt a h).2.host.ppStack = h.ppStack ∧
    (∀ v, (SelfControlledCaseSeries_convertToSccs rt a h).1 = Outcome.value v →
      (steps (SelfControlledCaseSeries_convertToSccs rt a h).2.trace).filter
          (fun s => s.isProtect || s.isUnprotect) = [Step.protect v, Step.unprotect 1] ∧
      ∃ pre hx,
        (SelfControlledCaseSeries_convertToSccs rt a h).2.trace =
          pre ++ [(Step.rngExit, hx),
            (Step.unprotect 1, (SelfControlledCaseSeries_convertToSccs rt a h).2.host)] ∧
        hx.ppStack = v :: h.ppStack) ∧
    ((∀ v, (SelfControlledCaseSeries_convertToSccs rt a h).1 ≠ Outcome.value v) →
      (steps (SelfControlledCaseSeries_convertToSccs rt a h).2.trace).filter
          (fun s => s.isProtect || s.isUnprotect) = []) := by
  rcases adapter_paths rt a h with ⟨e, mid, hx, heq, hq, hs, _, _⟩ |
    ⟨c, e, cs, cp, np, fo, L, v, mid, hw, hc, hr, hwr, heq, hq, hs, _, _⟩
  · rw [heq]
    refine ⟨hs, fun v hv => (by cases hv), fun _ => ?_⟩
    have hm := filter_stack_steps_quiet mid (fun p hp => (hq p hp).1)
    show (steps ((Step.rngEnter, Host.enterRNGScope rt.rngScopeEnter h) ::
      (mid ++ [(Step.rngExit, hx)]))).filter (fun s => s.isProtect || s.isUnprotect) = []
    rw [steps_cons, steps_append, List.filter_cons_of_neg (by simp [Step.isProtect,
      Step.isUnprotect]), List.filter_append, hm]
    rfl
  · rw [heq]
    have hm := filter_stack_steps_quiet mid (fun p hp => (hq p hp).1)
    refine ⟨?_, fun w hw2 => ?_, fun hne => absurd rfl (hne v)⟩
    · simpa [Host.UNPROTECT, Host.exitRNGScope, Host.PROTECT] using hs
    · cases hw2
      refine ⟨?_, ?_⟩
      · show (steps ((Step.rngEnter, Host.enterRNGScope rt.rngScopeEnter h) ::
          (mid ++ [(Step.wrap, hw), (Step.protect v, Host.PROTECT v hw),
            (Step.rngExit, Host.exitRNGScope rt.rngScopeExit (Host.PROTECT v hw)),
            (Step.unprotect 1,
              Host.UNPROTECT 1 (Host.exitRNGScope rt.rngScopeExit (Host.PROTECT v hw)))]))).filter
            (fun s => s.isProtect || s.isUnprotect) = [Step.protect v, Step.unprotect 1]
        rw [steps_cons, steps_append, List.filter_cons_of_neg (by simp [Step.isProtect,
          Step.isUnprotect]), List.filter_append, hm]
        rfl
      refine ⟨(.rngEnter, Host.enterRNGScope rt.rngScopeEnter h) ::
          (mid ++ [(.wrap, hw), (.protect v, Host.PROTECT v hw)]),
        Host.exitRNGScope rt.rngScopeExit (Host.PROTECT v hw), by simp, ?_⟩
      simp [Host.exitRNGScope, Host.PROTECT, hs]

/-- C6: the result is not left unprotected while the adapter still executes
anything.  On every successful path, with returned value `v`, the last four
steps of the adapter are the wrap that produces `v`, `PROTECT(v)` as the very
next step, the release of the random-number-generator scope and
`UNPROTECT(1)`, after which the adapter returns `v` without a further step.
The release of the scope and the UNPROTECT both start in a host state that has
`v` on the protection stack, on top of the entries found on entry, and the
UNPROTECT removes exactly that entry. -/
theorem C6_result_protected_until_return {SEXP DataFrame RList Exn W : Type}
    (rt : Native SEXP DataFrame RList Exn W) (a : HostArgs SEXP) (h : Host SEXP W) (v : SEXP)
    (hv : (SelfControlledCaseSeries_convertToSccs rt a h).1 = Outcome.value v) :
    ∃ pre hw hp hx,
      (SelfControlledCaseSeries_convertToSccs rt a h).2.trace =
        pre ++ [(Step.wrap, hw), (Step.protect v, hp), (Step.rngExit, hx),
          (Step.unprotect 1, (SelfControlledCaseSeries_convertToSccs rt a h).2.host)] ∧
      hw.ppStack = h.ppStack ∧ hp = Host.PROTECT v hw ∧
      hp.ppStack = v :: h.ppStack ∧ v ∈ hp.ppStack ∧
      hx.ppStack = v :: h.ppStack ∧ v ∈ hx.ppStack ∧
      (SelfControlledCaseSeries_convertToSccs rt a h).2.host = Host.UNPROTECT 1 hx ∧
      (SelfControlledCaseSeries_convertToSccs rt a h).2.host.ppStack = h.ppStack := by
  rcases adapter_paths rt a h with ⟨e, mid, hx, heq, _, _, _, _⟩ |
    ⟨c, e, cs, cp, np, fo, L, w, mid, hw, hc, hr, hwr, heq, hq, hs, _, _⟩
  · rw [heq] at hv; cases hv
  · rw [heq] at hv
    cases hv
    rw [heq]
    have hp : (Host.PROTECT v hw).ppStack = v :: h.ppStack := by
      show v :: hw.ppStack = v :: h.ppStack
      rw [hs]
    have hxs : (Host.exitRNGScope rt.rngScopeExit (Host.PROTECT v hw)).ppStack =
        v :: h.ppStack := hp
    refine ⟨(.rngEnter, Host.enterRNGScope rt.rngScopeEnter h) :: mid, hw, Host.PROTECT v hw,
      Host.exitRNGScope rt.rngScopeExit (Host.PROTECT v hw), by simp, hs, rfl, hp, ?_, hxs, ?_,
      rfl, ?_⟩
    · rw [hp]; exact List.mem_cons_self _ _
    · rw [hxs]; exact List.mem_cons_self _ _
    · show ((Host.exitRNGScope rt.rngScopeExit (Host.PROTECT v hw)).ppStack).drop 1 = h.ppStack
      rw [hxs]; rfl

/-- Witness of C6 on the example call, which returns `[3, 3, 4, 5, 6]`. -/
theorem C6_result_protected_until_return_witness :
    (SelfControlledCaseSeries_convertToSccs exRt exArgs exHost).1 =
      Outcome.value [3, 3, 4, 5, 6] ∧
    ∃ pre hw hp hx,
      (SelfControlledCaseSeries_convertToSccs exRt exArgs exHost).2.trace =
        pre ++ [(Step.wrap, hw), (Step.protect [3, 3, 4, 5, 6], hp), (Step.rngExit, hx),
          (Step.unprotect 1, (SelfControlledCaseSeries_convertToSccs exRt exArgs exHost).2.host)] ∧
      hw.ppStack = exHost.ppStack ∧ hp = Host.PROTECT [3, 3, 4, 5, 6] hw ∧
      hp.ppStack = [3, 3, 4, 5, 6] :: exHost.ppStack ∧ [3, 3, 4, 5, 6] ∈ hp.ppStack ∧
      hx.ppStack = [3, 3, 4, 5, 6] :: exHost.ppStack ∧ [3, 3, 4, 5, 6] ∈ hx.ppStack ∧
      (SelfControlledCaseSeries_convertToSccs exRt exArgs exHost).2.host =
        Host.UNPROTECT 1 hx ∧
      (SelfControlledCaseSeries_convertToSccs exRt exArgs exHost).2.host.ppStack =
        exHost.ppStack :=
  ⟨rfl, C6_result_protected_until_return exRt exArgs exHost [3, 3, 4, 5, 6] rfl⟩

/-- C8: the random-number-generator scope is held around the call of the
routine.  On every path the trace is the scope entry, then steps `mid`, then
the scope release, then steps `post`.  The entry raises the scope depth by
one; neither `mid` nor `post` enters or releases the scope, so it is entered
once, first, and released once; every step of `mid`, the conversions and the
call among them, leaves the depth at one above the depth on entry; the
release brings the depth back to the depth on entry, where it stays through
`post` and at the return; `post` holds no conversion and no call.  On the
success path `mid` ends with the PROTECT of the result and `post` is
`UNPROTECT(1)`; on every other path the release is the last step. -/
theorem C8_rng_scope_held_around_call {SEXP DataFrame RList Exn W : Type}
    (rt : Native SEXP DataFrame RList Exn W) (a : HostArgs SEXP) (h : Host SEXP W) :
    (∃ he mid hx post,
      (SelfControlledCaseSeries_convertToSccs rt a h).2.trace =
        (Step.rngEnter, he) :: (mid ++ (Step.rngExit, hx) :: post) ∧
      he = Host.enterRNGScope rt.rngScopeEnter h ∧ he.rngScope = h.rngScope + 1 ∧
      (∀ p ∈ mid, p.1.isRngEnter = false ∧ p.1.isRngExit = false ∧
        p.2.rngScope = h.rngScope + 1) ∧
      hx.rngScope = h.rngScope ∧
      (∀ p ∈ post, p.1.isRngEnter = false ∧ p.1.isRngExit = false ∧
        p.1.isConvert = false ∧ p.1.isCall = false ∧ p.2.rngScope = h.rngScope) ∧
      (∀ v, (SelfControlledCaseSeries_convertToSccs rt a h).1 = Outcome.value v →
        (∃ pre hp, mid = pre ++ [(Step.protect v, hp)]) ∧
        post = [(Step.unprotect 1, (SelfControlledCaseSeries_convertToSccs rt a h).2.host)]) ∧
      ((∀ v, (SelfControlledCaseSeries_convertToSccs rt a h).1 ≠ Outcome.value v) →
        post = [] ∧ (SelfControlledCaseSeries_convertToSccs rt a h).2.host = hx)) ∧
    (SelfControlledCaseSeries_convertToSccs rt a h).2.host.rngScope = h.rngScope ∧
    ∀ p ∈ (SelfControlledCaseSeries_convertToSccs rt a h).2.trace,
      p.1.isCall = true → p.2.rngScope = h.rngScope + 1 := by
  rcases adapter_paths rt a h with ⟨e, mid, hx, heq, hq, _, hd, _⟩ |
    ⟨c, e, cs, cp, np, fo, L, v, mid, hw, hc, hr, hwr, heq, hq, _, hd, _⟩
  · rw [heq]
    refine ⟨⟨_, mid, hx, [], rfl, rfl, rfl, ?_, hd, ?_, ?_, ?_⟩, hd, ?_⟩
    · intro p hp
      exact ⟨(quiet_not_scope p.1 (hq p hp).1).1, (quiet_not_scope p.1 (hq p hp).1).2,
        (hq p hp).2.2⟩
    · intro p hp; cases hp
    · intro v hv; cases hv
    · intro _; exact ⟨rfl, rfl⟩
    · intro p hp hcall
      simp only [List.mem_cons, List.mem_append, List.mem_singleton, List.not_mem_nil,
        or_false] at hp
      rcases hp with rfl | hp | rfl
      · simp [Step.isCall] at hcall
      · exact (hq p hp).2.2
      · simp [Step.isCall] at hcall
  · rw [heq]
    have hpd : (Host.PROTECT v hw).rngScope = h.rngScope + 1 := hd
    have hxd : (Host.exitRNGScope rt.rngScopeExit (Host.PROTECT v hw)).rngScope =
        h.rngScope := by
      show hw.rngScope - 1 = h.rngScope
      rw [hd]; rfl
    have hud : (Host.UNPROTECT 1
        (Host.exitRNGScope rt.rngScopeExit (Host.PROTECT v hw))).rngScope = h.rngScope := hxd
    refine ⟨⟨_, mid ++ [(.wrap, hw), (.protect v, Host.PROTECT v hw)],
      Host.exitRNGScope rt.rngScopeExit (Host.PROTECT v hw),
      [(.unprotect 1, Host.UNPROTECT 1 (Host.exitRNGScope rt.rngScopeExit (Host.PROTECT v hw)))],
      by simp, rfl, rfl, ?_, hxd, ?_, ?_, ?_⟩, hud, ?_⟩
    · intro p hp
      simp only [List.mem_append, List.mem_cons, List.mem_singleton, List.not_mem_nil,
        or_false] at hp
      rcases hp with hp | rfl | rfl
      · exact ⟨(quiet_not_scope p.1 (hq p hp).1).1, (quiet_not_scope p.1 (hq p hp).1).2,
          (hq p hp).2.2⟩
      · exact ⟨rfl, rfl, hd⟩
      · exact ⟨rfl, rfl, hpd⟩
    · intro p hp
      simp only [List.mem_singleton] at hp
      subst hp
      exact ⟨rfl, rfl, rfl, rfl, hud⟩
    · intro w hw2
      cases hw2
      exact ⟨⟨mid ++ [(.wrap, hw)], Host.PROTECT v hw, by simp⟩, rfl⟩
    · intro hne
      exact absurd rfl (hne v)
    · intro p hp hcall
      simp only [List.mem_cons, List.mem_append, List.mem_singleton, List.not_mem_nil,
        or_false] at hp
      rcases hp with rfl | hp | rfl | rfl | rfl | rfl
      · simp [Step.isCall] at hcall
      · exact (hq p hp).2.2
      · simp [Step.isCall] at hcall
      · simp [Step.isCall] at hcall
      · simp [Step.isCall] at hcall
      · simp [Step.isCall] at hcall

end SccsExports
